import Mathlib

/-!
Verification model of the `node-web-client` repository.

The repository has two source files:
* `src/Http.ts`, a string enum of the nine HTTP methods;
* the web-client module, containing `hasProtocol`, `hasSecureProtocol`,
  `asyncRequest`, `fillRequestOptionDefaults` and the `WebClient` class
  with `constructor`, `extend` and `request`.

JavaScript strings are modelled as lists of characters (`JStr`).
JavaScript object fields that may be missing or explicitly `undefined`
are modelled with the three-state type `JSField`, so that object-spread
semantics (a present-but-`undefined` key overrides a default, an absent
key does not) are captured exactly.

The network itself is not modelled: the low-level transport
(`asyncRequest`) is a parameter of type `Transport`; its returned
promise outcome is an `Except Err InternalResponse`.  The piece of
`asyncRequest` that the claims mention — the choice between the
`https.request` and `http.request` entry points, driven solely by the
`secure` flag — is modelled by `selectChannel`.

`WebClient.request` is an `async` JavaScript method: every exception
thrown inside its body (in particular the `TypeError` raised by
`fillRequestOptionDefaults`) surfaces as a rejection of the returned
promise, never as a synchronous throw at the call site.  The result
type `CallResult` distinguishes the two delivery modes: `syncThrow` is
an exception escaping the call itself, `promise` is the returned
promise together with its eventual outcome.  Accordingly the body of
`WebClient.request` is wrapped in `CallResult.promise`, while the class
constructor (a plain synchronous function) returns `Except`, its
`error` case being a synchronous throw.
-/

namespace NodeWebClient

/-- Characters of a JavaScript string. -/
abbrev JStr := List Char

/-- The `Http.Method` const enum from `src/Http.ts`: the nine HTTP verbs. -/
inductive Method where
  | connect
  | delete
  | get
  | head
  | options
  | patch
  | post
  | put
  | trace
deriving DecidableEq, Repr

/-- A field of a JavaScript object literal: the key may be absent, present
with the value `undefined`, or present with a proper value.  `??` and
`== null` treat `absent` and `undef` alike; object spread copies `undef`
and `val` entries but not `absent` ones. -/
inductive JSField (α : Type) where
  | absent
  | undef
  | val (a : α)
deriving DecidableEq, Repr

/-- The value seen by `??` / `== null`: `absent` and `undef` are both nullish. -/
def JSField.toOption {α : Type} : JSField α → Option α
  | .val a => some a
  | _ => none

/-- Object-spread update for one key: an entry present in `new` (even an
explicitly `undefined` one) overrides `old`; an absent key keeps `old`. -/
def JSField.mergeOver {α : Type} (old new : JSField α) : JSField α :=
  match new with
  | .absent => old
  | x => x

/-- A JavaScript error value: `typeErr` is a `TypeError` carrying its
message, `other` is any other error object (e.g. a socket error). -/
inductive Err where
  | typeErr (message : String)
  | other (message : String)
deriving DecidableEq, Repr

/-- The message of the `TypeError` thrown by `fillRequestOptionDefaults`. -/
def urlNoProtocolMessage : String :=
  "\x60url\x60 doesn\x27t include a protocol and \x60baseUrl\x60 isn\x27t set"

/-- The message of the `TypeError` thrown by the `WebClient` constructor. -/
def baseUrlNoProtocolMessage : String :=
  "\x60baseUrl\x60 doesn\x27t include a protocol"

/-- `hasProtocol`: the regex test `/^https?:/.test(url)`, i.e. the string
starts with `http:` or with `https:`. -/
def hasProtocol (url : JStr) : Bool :=
  ("http:".toList).isPrefixOf url || ("https:".toList).isPrefixOf url

/-- `hasSecureProtocol`: `url.startsWith('https:')`. -/
def hasSecureProtocol (url : JStr) : Bool :=
  ("https:".toList).isPrefixOf url

/-- The JS expression `s.replace(/\/*$/, '/')`.  The first (and only)
match of the non-global anchored pattern is the maximal run of trailing
slashes — possibly the empty run at the end of the string — and it is
replaced by a single slash, so the result is `s` with all trailing
slashes removed followed by exactly one `'/'`. -/
def replaceTrailingSlashesWithSlash (s : JStr) : JStr :=
  (s.reverse.dropWhile (fun c => c == '/')).reverse ++ [ '/' ]

/-- The JS expression `s.replace(/^\/+/, '')`: the maximal leading run of
slashes is removed. -/
def replaceLeadingSlashes (s : JStr) : JStr :=
  s.dropWhile (fun c => c == '/')

/-- The resolved URL exactly as the specification text describes it:
`baseUrl` with all trailing slashes stripped, then exactly one slash,
then the request url with all leading slashes stripped. -/
def specResolvedUrl (baseUrl url : JStr) : JStr :=
  (baseUrl.reverse.dropWhile (fun c => c == '/')).reverse
    ++ [ '/' ] ++ url.dropWhile (fun c => c == '/')

/-- The `InternalResponse` interface: the buffered transport result. -/
structure InternalResponse where
  headers : List (String × String)
  rawData : String
  statusCode : Nat
  statusMessage : String
  trailers : List (String × Option String)
deriving DecidableEq, Repr

/-- The options object `\x7b method: filledOptions.method \x7d` handed to the
transport: it carries only the method (`none` models `undefined`). -/
structure TransportOptions where
  method : Option Method
deriving DecidableEq, Repr

/-- The low-level transport (`asyncRequest`): resolved URL, transport
options, optional request body, secure flag; its promise either resolves
with an `InternalResponse` or rejects with an error. -/
abbrev Transport :=
  JStr → TransportOptions → Option String → Bool → Except Err InternalResponse

/-- Which of the two Node entry points `asyncRequest` uses. -/
inductive TransportChannel where
  | secureChannel
  | plainChannel
deriving DecidableEq, Repr

/-- `const performRequest = secure ? requestHttps : requestHttp;` in
`asyncRequest`: the routing decision made from the secure flag. -/
def selectChannel (secure : Bool) : TransportChannel :=
  if secure then .secureChannel else .plainChannel

/-- The `RequestOptions` interface: optional `method`, required `url`. -/
structure RequestOptions where
  method : JSField Method
  url : JStr
deriving DecidableEq, Repr

/-- The `WebClientOptions` interface: optional `baseUrl`, `defaultMethod`
and `limiter`. -/
structure WebClientOptions where
  baseUrl : JSField JStr
  defaultMethod : JSField Method
  limiter : JSField (Transport → Transport)

/-- The object literal built on the first lines of
`fillRequestOptionDefaults`:
`\x7b method: clientOptions.defaultMethod ?? Http.Method.get, ...options \x7d`.
The literal sets `method` to the client default (or GET), then the spread
of `options` overrides every key present in `options` — including a
`method` key explicitly set to `undefined` — and always sets `url`. -/
def mergeRequestDefaults (options : RequestOptions)
    (clientOptions : WebClientOptions) : RequestOptions :=
  { method := JSField.mergeOver
      (.val (clientOptions.defaultMethod.toOption.getD Method.get))
      options.method,
    url := options.url }

/-- `fillRequestOptionDefaults`: merge defaults, then, when `options.url`
has no protocol, either throw the `TypeError` (no `baseUrl` configured —
`clientOptions.baseUrl == null`) or overwrite `url` with
`clientOptions.baseUrl.replace(/\/*$/, '/') + options.url.replace(/^\/+/, '')`. -/
def fillRequestOptionDefaults (options : RequestOptions)
    (clientOptions : WebClientOptions) : Except Err RequestOptions :=
  let newOptions := mergeRequestDefaults options clientOptions
  if hasProtocol options.url then
    .ok newOptions
  else
    match clientOptions.baseUrl.toOption with
    | none => .error (.typeErr urlNoProtocolMessage)
    | some b =>
      .ok { newOptions with
              url := replaceTrailingSlashesWithSlash b
                       ++ replaceLeadingSlashes options.url }

/-- A constructed `WebClient` instance: the stored options and the
(possibly limiter-wrapped) transport function `requestFn`. -/
structure WebClient where
  options : WebClientOptions
  requestFn : Transport

/-- The constructor guard
`options.baseUrl != null && !hasProtocol(options.baseUrl)`. -/
def baseUrlInvalid (options : WebClientOptions) : Bool :=
  match options.baseUrl.toOption with
  | some b => !hasProtocol b
  | none => false

/-- The `WebClient` constructor.  `baseTransport` stands for the
module-level `asyncRequest` function.  A thrown `TypeError` is a
synchronous throw, modelled by the `error` case. -/
def WebClient.create (baseTransport : Transport)
    (options : WebClientOptions) : Except Err WebClient :=
  if baseUrlInvalid options then
    .error (.typeErr baseUrlNoProtocolMessage)
  else
    .ok { options := options,
          requestFn :=
            match options.limiter.toOption with
            | some l => l baseTransport
            | none => baseTransport }

/-- The object spread `\x7b ...this.options, ...options \x7d` in `extend`:
shallow merge, keys present in the override win. -/
def mergeClientOptions (old new : WebClientOptions) : WebClientOptions :=
  { baseUrl := old.baseUrl.mergeOver new.baseUrl,
    defaultMethod := old.defaultMethod.mergeOver new.defaultMethod,
    limiter := old.limiter.mergeOver new.limiter }

/-- `extend`: `new WebClient(\x7b ...this.options, ...options \x7d)`.  The new
client is built by the constructor on the merged options, against the
same module-level transport. -/
def WebClient.extend (c : WebClient) (baseTransport : Transport)
    (options : WebClientOptions) : Except Err WebClient :=
  WebClient.create baseTransport (mergeClientOptions c.options options)

deriving instance DecidableEq for Except

/-- The outcome of calling a JavaScript function that returns a promise:
either an exception escapes the call itself (`syncThrow`) or a promise is
returned whose eventual outcome is `outcome`. -/
inductive CallResult (α : Type) where
  | syncThrow (e : Err)
  | promise (outcome : Except Err α)
deriving DecidableEq, Repr

/-- `true` exactly when the call threw synchronously. -/
def CallResult.isSyncThrow {α : Type} : CallResult α → Bool
  | .syncThrow _ => true
  | _ => false

/-- The public `Response`: the `InternalResponse` fields plus the filled
request options that produced it. -/
structure Response where
  headers : List (String × String)
  rawData : String
  statusCode : Nat
  statusMessage : String
  trailers : List (String × Option String)
  requestOptions : RequestOptions
deriving DecidableEq, Repr

/-- `\x7b ...internalResponse, requestOptions: filledOptions \x7d`. -/
def assembleResponse (r : InternalResponse) (filled : RequestOptions) : Response :=
  { headers := r.headers,
    rawData := r.rawData,
    statusCode := r.statusCode,
    statusMessage := r.statusMessage,
    trailers := r.trailers,
    requestOptions := filled }

/-- `WebClient.request`.  The method is `async`, so the whole body runs
inside the returned promise: the `TypeError` thrown by
`fillRequestOptionDefaults` and any rejection of the awaited transport
promise both become rejections of the returned promise, and no path
produces a synchronous throw. -/
def WebClient.request (c : WebClient) (options : RequestOptions) :
    CallResult Response :=
  CallResult.promise
    (match fillRequestOptionDefaults options c.options with
     | .error e => .error e
     | .ok filled =>
       match c.requestFn filled.url { method := filled.method.toOption } none
           (hasSecureProtocol filled.url) with
       | .error e => .error e
       | .ok r => .ok (assembleResponse r filled))

/-- A transport that always resolves with a fixed empty response. -/
def stubTransport : Transport :=
  fun _ _ _ _ => .ok { headers := [], rawData := "", statusCode := 0,
                       statusMessage := "", trailers := [] }

/-- A transport that reports, in `rawData`, which Node entry point
`asyncRequest` would select from the secure flag it received. -/
def channelProbe : Transport :=
  fun _ _ _ secure =>
    .ok { headers := [],
          rawData := match selectChannel secure with
                     | .secureChannel => "secure"
                     | .plainChannel => "plain",
          statusCode := 0, statusMessage := "", trailers := [] }

/-- The transport of the specification's example: it resolves with
status 200, message OK and body hello. -/
def exampleTransport200 : Transport :=
  fun _ _ _ _ => .ok { headers := [], rawData := "hello", statusCode := 200,
                       statusMessage := "OK", trailers := [] }

/-- A client configured with the example base URL and default method GET. -/
def exampleClient : WebClient :=
  { options := { baseUrl := .val ("https://api.example.com".toList),
                 defaultMethod := .val .get,
                 limiter := .absent },
    requestFn := stubTransport }

/-- The override of the specification's `extend` example: only
`defaultMethod` is supplied. -/
def postOnlyOverride : WebClientOptions :=
  { baseUrl := .absent, defaultMethod := .val .post, limiter := .absent }

/-- The base URL of the specification's slash-joining example. -/
def exampleBase : JStr := "https://api.example.com".toList

/-- The expected resolved URL of the slash-joining example. -/
def exampleItemsUrl : JStr := "https://api.example.com/v1/items".toList

/-- `true` when resolving request url `u` against a client whose base URL
is `b` produces exactly `https://api.example.com/v1/items`. -/
def resolvesToItemsUrl (b u : String) : Bool :=
  ((fillRequestOptionDefaults { method := .absent, url := u.toList }
      { baseUrl := .val b.toList, defaultMethod := .absent, limiter := .absent }).map
    (fun o => o.url)) == .ok exampleItemsUrl

/-- The example base URL with zero, one and two trailing slashes. -/
def slashVariantBases : List String :=
  ["https://api.example.com", "https://api.example.com/", "https://api.example.com//"]

/-- The example request url with zero, one and two leading slashes. -/
def slashVariantUrls : List String :=
  ["v1/items", "/v1/items", "//v1/items"]

/-! ### Helper lemmas -/

lemma isPrefixOf_append_self (p x : JStr) : p.isPrefixOf (p ++ x) = true := by
  induction p with
  | nil => simp [List.isPrefixOf]
  | cons a as ih => simp [List.isPrefixOf, ih]

lemma exists_append_of_isPrefixOf (p l : JStr) (h : p.isPrefixOf l = true) :
    ∃ t, l = p ++ t := by
  induction p generalizing l with
  | nil => exact ⟨l, rfl⟩
  | cons a as ih =>
    cases l with
    | nil => simp [List.isPrefixOf] at h
    | cons b bs =>
      simp only [List.isPrefixOf, Bool.and_eq_true, beq_iff_eq] at h
      obtain ⟨rfl, h2⟩ := h
      obtain ⟨t, rfl⟩ := ih bs h2
      exact ⟨t, rfl⟩

lemma dropWhile_append_cons (f : Char → Bool) (l m : JStr) (c : Char)
    (hc : f c = false) :
    List.dropWhile f (l ++ c :: m) = List.dropWhile f l ++ c :: m := by
  induction l with
  | nil => simp [List.dropWhile, hc]
  | cons a as ih =>
    by_cases h : f a <;> simp [List.dropWhile, h, ih]

lemma replaceTrailing_protocol (q : JStr) (c : Char) (t : JStr)
    (hc : (c == '/') = false) :
    replaceTrailingSlashesWithSlash ((q ++ [c]) ++ t)
      = (q ++ [c])
          ++ ((t.reverse.dropWhile (fun x => x == '/')).reverse ++ [ '/' ]) := by
  have h1 : ((q ++ [c]) ++ t).reverse = t.reverse ++ c :: q.reverse := by
    simp
  rw [replaceTrailingSlashesWithSlash, h1,
    dropWhile_append_cons (fun x => x == '/') t.reverse q.reverse c hc]
  simp

lemma hasProtocol_replaceTrailing_append (b x : JStr)
    (hb : hasProtocol b = true) :
    hasProtocol (replaceTrailingSlashesWithSlash b ++ x) = true := by
  rw [hasProtocol, Bool.or_eq_true] at hb
  rcases hb with h | h
  · obtain ⟨t, rfl⟩ := exists_append_of_isPrefixOf _ _ h
    have hsplit : "http:".toList = "http".toList ++ [':'] := by decide
    rw [hsplit, replaceTrailing_protocol "http".toList ':' t (by decide)]
    rw [hasProtocol, Bool.or_eq_true]
    left
    rw [← hsplit, List.append_assoc]
    exact isPrefixOf_append_self _ _
  · obtain ⟨t, rfl⟩ := exists_append_of_isPrefixOf _ _ h
    have hsplit : "https:".toList = "https".toList ++ [':'] := by decide
    rw [hsplit, replaceTrailing_protocol "https".toList ':' t (by decide)]
    rw [hasProtocol, Bool.or_eq_true]
    right
    rw [← hsplit, List.append_assoc]
    exact isPrefixOf_append_self _ _

lemma fill_ok_cases (opts : RequestOptions) (copts : WebClientOptions)
    (filled : RequestOptions)
    (h : fillRequestOptionDefaults opts copts = .ok filled) :
    filled.method = (mergeRequestDefaults opts copts).method
  ∧ ((hasProtocol opts.url = true ∧ filled.url = opts.url)
     ∨ (hasProtocol opts.url = false
        ∧ ∃ b, copts.baseUrl.toOption = some b
            ∧ filled.url = replaceTrailingSlashesWithSlash b
                 ++ replaceLeadingSlashes opts.url)) := by
  unfold fillRequestOptionDefaults at h
  by_cases hp : hasProtocol opts.url
  · simp only [hp, if_true, Except.ok.injEq] at h
    subst h
    exact ⟨rfl, Or.inl ⟨hp, rfl⟩⟩
  · simp only [hp, if_false, Bool.false_eq_true] at h
    cases hb : copts.baseUrl.toOption with
    | none => rw [hb] at h; exact absurd h (by simp)
    | some b =>
      rw [hb] at h
      simp only [Except.ok.injEq] at h
      subst h
      exact ⟨rfl, Or.inr ⟨by simp [hp], b, rfl, rfl⟩⟩

lemma hasProtocol_of_create_ok (copts : WebClientOptions) (b : JStr)
    (hinv : baseUrlInvalid copts = false)
    (hb : copts.baseUrl.toOption = some b) : hasProtocol b = true := by
  rw [baseUrlInvalid, hb] at hinv
  simpa using hinv

/-! ### Claims -/

/-- C1: for every client whose `baseUrl` is set (and starts with `http:`
or `https:`) and every request url without a protocol, the resolved URL
is `baseUrl` with all trailing slashes stripped, one slash, then the url
with all leading slashes stripped; in particular every slash variant of
the base `https://api.example.com` joined with every slash variant of
`/v1/items` resolves to exactly `https://api.example.com/v1/items`. -/
theorem C1_resolved_url_strips_and_joins_slashes
    (b u : JStr) (copts : WebClientOptions) (m : JSField Method)
    (filled : RequestOptions)
    (hbset : copts.baseUrl = .val b)
    (_hbp : hasProtocol b = true)
    (hu : hasProtocol u = false)
    (h : fillRequestOptionDefaults { method := m, url := u } copts = .ok filled) :
    filled.url = specResolvedUrl b u
  ∧ (slashVariantBases.all fun bs =>
       slashVariantUrls.all fun us => resolvesToItemsUrl bs us) = true := by
  constructor
  · have hfill : fillRequestOptionDefaults { method := m, url := u } copts
        = .ok { mergeRequestDefaults { method := m, url := u } copts with
                  url := replaceTrailingSlashesWithSlash b
                           ++ replaceLeadingSlashes u } := by
      rw [fillRequestOptionDefaults]
      simp [hu, hbset, JSField.toOption]
    rw [hfill, Except.ok.injEq] at h
    subst h
    simp [replaceTrailingSlashesWithSlash, replaceLeadingSlashes,
      specResolvedUrl, List.append_assoc]
  · decide

/-- Witness for C1 at the base `https://api.example.com` and the request
url `/v1/items`. -/
theorem C1_resolved_url_strips_and_joins_slashes_witness :
    ((⟨.val exampleBase, .absent, .absent⟩ : WebClientOptions).baseUrl
        = .val exampleBase)
  ∧ hasProtocol exampleBase = true
  ∧ hasProtocol ("/v1/items".toList) = false
  ∧ fillRequestOptionDefaults { method := .absent, url := "/v1/items".toList }
      ⟨.val exampleBase, .absent, .absent⟩
      = .ok { method := .val .get, url := exampleItemsUrl }
  ∧ (({ method := .val Method.get, url := exampleItemsUrl } : RequestOptions).url
        = specResolvedUrl exampleBase ("/v1/items".toList)
     ∧ (slashVariantBases.all fun bs =>
          slashVariantUrls.all fun us => resolvesToItemsUrl bs us) = true) :=
  ⟨rfl, by decide, by decide, by decide,
   C1_resolved_url_strips_and_joins_slashes exampleBase ("/v1/items".toList)
     ⟨.val exampleBase, .absent, .absent⟩ .absent
     { method := .val .get, url := exampleItemsUrl }
     rfl (by decide) (by decide) (by decide)⟩

/-- C2: a successful `request` invokes the client's transport with the
resolved URL, a transport-options object carrying only the filled method,
an always-`undefined` body and the secure flag, and returns the transport
result's fields unmodified plus `requestOptions` equal to the filled
options; in particular the specification's 200/OK/hello example resolves
as described. -/
theorem C2_transport_invocation_and_response_assembly
    (copts : WebClientOptions) (T : Transport) (opts filled : RequestOptions)
    (h : fillRequestOptionDefaults opts copts = .ok filled) :
    WebClient.request { options := copts, requestFn := T } opts
      = .promise ((T filled.url { method := filled.method.toOption } none
            (hasSecureProtocol filled.url)).map
          (fun r => assembleResponse r filled))
  ∧ WebClient.request
      { options := ⟨.val exampleBase, .absent, .absent⟩,
        requestFn := exampleTransport200 }
      { method := .absent, url := "/x".toList }
      = .promise (.ok
          { headers := [], rawData := "hello", statusCode := 200,
            statusMessage := "OK", trailers := [],
            requestOptions :=
              { method := .val .get,
                url := "https://api.example.com/x".toList } }) := by
  constructor
  · rw [WebClient.request]
    simp only [h]
    cases hT : T filled.url { method := filled.method.toOption } none
        (hasSecureProtocol filled.url) <;>
      simp [Except.map, hT]
  · decide

/-- Witness for C2 with the example transport and the request url `/x`. -/
theorem C2_transport_invocation_and_response_assembly_witness :
    fillRequestOptionDefaults { method := .absent, url := "/x".toList }
      ⟨.val exampleBase, .absent, .absent⟩
      = .ok { method := .val .get, url := "https://api.example.com/x".toList }
  ∧ (WebClient.request
       { options := ⟨.val exampleBase, .absent, .absent⟩,
         requestFn := exampleTransport200 }
       { method := .absent, url := "/x".toList }
       = .promise ((exampleTransport200
             ("https://api.example.com/x".toList)
             { method := some .get } none
             (hasSecureProtocol ("https://api.example.com/x".toList))).map
           (fun r => assembleResponse r
             { method := .val .get,
               url := "https://api.example.com/x".toList }))
     ∧ WebClient.request
         { options := ⟨.val exampleBase, .absent, .absent⟩,
           requestFn := exampleTransport200 }
         { method := .absent, url := "/x".toList }
         = .promise (.ok
             { headers := [], rawData := "hello", statusCode := 200,
               statusMessage := "OK", trailers := [],
               requestOptions :=
                 { method := .val .get,
                   url := "https://api.example.com/x".toList } })) :=
  ⟨by decide,
   C2_transport_invocation_and_response_assembly
     ⟨.val exampleBase, .absent, .absent⟩ exampleTransport200
     { method := .absent, url := "/x".toList }
     { method := .val .get, url := "https://api.example.com/x".toList }
     (by decide)⟩

/-- C3 counterexample: on a client with no `baseUrl`, a request whose url
has no protocol does fail with the configuration `TypeError`, but the
error is the rejection of the promise returned by the `async` method
`request`, not a synchronous throw at call time — refuting the claim's
"thrown synchronously, not delivered as an asynchronous rejection". -/
theorem C3_sync_throw_counterexample :
    WebClient.request
      { options := ⟨.absent, .absent, .absent⟩, requestFn := stubTransport }
      { method := .absent, url := "/x".toList }
      = .promise (.error (.typeErr urlNoProtocolMessage))
  ∧ (WebClient.request
       { options := ⟨.absent, .absent, .absent⟩, requestFn := stubTransport }
       { method := .absent, url := "/x".toList }).isSyncThrow = false := by
  exact ⟨by decide, by decide⟩

/-- C3 (amended): for every request whose url has no protocol on a client
with no `baseUrl` configured, `request` fails with the `TypeError`
"url doesn't include a protocol and baseUrl isn't set", delivered as an
asynchronous rejection of the returned promise (the method is `async`),
never as a synchronous throw. -/
theorem C3_missing_baseUrl_rejects_asynchronously
    (copts : WebClientOptions) (T : Transport) (m : JSField Method) (u : JStr)
    (hb : copts.baseUrl.toOption = none)
    (hu : hasProtocol u = false) :
    WebClient.request { options := copts, requestFn := T }
        { method := m, url := u }
      = .promise (.error (.typeErr urlNoProtocolMessage))
  ∧ (WebClient.request { options := copts, requestFn := T }
       { method := m, url := u }).isSyncThrow = false := by
  have hfill : fillRequestOptionDefaults { method := m, url := u } copts
      = .error (.typeErr urlNoProtocolMessage) := by
    rw [fillRequestOptionDefaults]
    simp [hu, hb]
  constructor
  · rw [WebClient.request]
    simp [hfill]
  · rw [WebClient.request]
    rfl

/-- Witness for the amended C3 on a concrete client with no base URL. -/
theorem C3_missing_baseUrl_rejects_asynchronously_witness :
    ((⟨.absent, .val .post, .absent⟩ : WebClientOptions).baseUrl.toOption
        = none)
  ∧ hasProtocol ("/v1/items".toList) = false
  ∧ (WebClient.request
       { options := ⟨.absent, .val .post, .absent⟩,
         requestFn := exampleTransport200 }
       { method := .absent, url := "/v1/items".toList }
       = .promise (.error (.typeErr urlNoProtocolMessage))
     ∧ (WebClient.request
          { options := ⟨.absent, .val .post, .absent⟩,
            requestFn := exampleTransport200 }
          { method := .absent, url := "/v1/items".toList }).isSyncThrow
         = false) :=
  ⟨rfl, by decide,
   C3_missing_baseUrl_rejects_asynchronously
     ⟨.absent, .val .post, .absent⟩ exampleTransport200 .absent
     ("/v1/items".toList) rfl (by decide)⟩

/-- C4: constructing a client whose `baseUrl` lacks an `http:`/`https:`
protocol fails synchronously with the `TypeError`
"baseUrl doesn't include a protocol"; and no per-request check of the
base URL's protocol exists: a client value holding an invalid base URL
still serves a relative-url request without raising that error. -/
theorem C4_baseUrl_validated_only_at_construction
    (b : JStr) (dm : JSField Method) (lim : JSField (Transport → Transport))
    (T : Transport) (r : InternalResponse) (u : JStr)
    (hb : hasProtocol b = false)
    (hu : hasProtocol u = false) :
    WebClient.create T ⟨.val b, dm, lim⟩
      = .error (.typeErr baseUrlNoProtocolMessage)
  ∧ WebClient.request
      { options := ⟨.val b, dm, lim⟩, requestFn := fun _ _ _ _ => .ok r }
      { method := .absent, url := u }
      = .promise (.ok (assembleResponse r
          { method := .val (dm.toOption.getD Method.get),
            url := replaceTrailingSlashesWithSlash b
                     ++ replaceLeadingSlashes u })) := by
  constructor
  · rw [WebClient.create]
    simp [baseUrlInvalid, JSField.toOption, hb]
  · have hfill : fillRequestOptionDefaults { method := .absent, url := u }
        ⟨.val b, dm, lim⟩
        = .ok { method := .val (dm.toOption.getD Method.get),
                url := replaceTrailingSlashesWithSlash b
                         ++ replaceLeadingSlashes u } := by
      rw [fillRequestOptionDefaults]
      simp [hu, JSField.toOption, mergeRequestDefaults, JSField.mergeOver]
    rw [WebClient.request]
    simp [hfill]

/-- Witness for C4 with the protocol-less base URL `ftp://files.example.com`. -/
theorem C4_baseUrl_validated_only_at_construction_witness :
    hasProtocol ("ftp://files.example.com".toList) = false
  ∧ hasProtocol ("/x".toList) = false
  ∧ (WebClient.create stubTransport
       ⟨.val ("ftp://files.example.com".toList), .absent, .absent⟩
       = .error (.typeErr baseUrlNoProtocolMessage)
     ∧ WebClient.request
         { options := ⟨.val ("ftp://files.example.com".toList), .absent, .absent⟩,
           requestFn := fun _ _ _ _ =>
             .ok { headers := [], rawData := "hello", statusCode := 200,
                   statusMessage := "OK", trailers := [] } }
         { method := .absent, url := "/x".toList }
         = .promise (.ok (assembleResponse
             { headers := [], rawData := "hello", statusCode := 200,
               statusMessage := "OK", trailers := [] }
             { method := .val ((JSField.absent : JSField Method).toOption.getD
                                 Method.get),
               url := replaceTrailingSlashesWithSlash
                        ("ftp://files.example.com".toList)
                        ++ replaceLeadingSlashes ("/x".toList) }))) :=
  ⟨by decide, by decide,
   C4_baseUrl_validated_only_at_construction
     ("ftp://files.example.com".toList) .absent .absent stubTransport
     { headers := [], rawData := "hello", statusCode := 200,
       statusMessage := "OK", trailers := [] }
     ("/x".toList) (by decide) (by decide)⟩

/-- C5: the effective (filled) options take their method from the
caller-supplied options when supplied, else from the client's
`defaultMethod` when set, else GET, and their url (before resolution) is
the given `options.url`; per-request fields override the defaults. -/
theorem C5_default_filling_of_request_options
    (opts : RequestOptions) (copts : WebClientOptions)
    (filled : RequestOptions)
    (h : fillRequestOptionDefaults opts copts = .ok filled) :
    (mergeRequestDefaults opts copts).url = opts.url
  ∧ filled.method = (mergeRequestDefaults opts copts).method
  ∧ (∀ m, opts.method = .val m → filled.method = .val m)
  ∧ (opts.method = .absent
      → filled.method = .val (copts.defaultMethod.toOption.getD Method.get))
  ∧ (hasProtocol opts.url = true → filled.url = opts.url) := by
  obtain ⟨hm, hurl⟩ := fill_ok_cases opts copts filled h
  refine ⟨rfl, hm, ?_, ?_, ?_⟩
  · intro m hms
    rw [hm, mergeRequestDefaults, hms]
    rfl
  · intro hms
    rw [hm, mergeRequestDefaults, hms]
    rfl
  · intro hp
    rcases hurl with ⟨_, hu⟩ | ⟨hnp, _⟩
    · exact hu
    · rw [hp] at hnp
      exact absurd hnp (by simp)

/-- Witness for C5: a supplied POST overrides a configured DELETE default,
and an absent method falls back to the default. -/
theorem C5_default_filling_of_request_options_witness :
    fillRequestOptionDefaults
        { method := .val .post, url := "https://x.example/a".toList }
        ⟨.absent, .val .delete, .absent⟩
      = .ok { method := .val .post, url := "https://x.example/a".toList }
  ∧ ((mergeRequestDefaults
        { method := .val .post, url := "https://x.example/a".toList }
        ⟨.absent, .val .delete, .absent⟩).url
       = "https://x.example/a".toList
     ∧ ({ method := .val Method.post,
          url := "https://x.example/a".toList } : RequestOptions).method
         = .val .post
     ∧ ({ method := .val Method.post,
          url := "https://x.example/a".toList } : RequestOptions).url
         = "https://x.example/a".toList) :=
  ⟨by decide,
   (C5_default_filling_of_request_options
      { method := .val .post, url := "https://x.example/a".toList }
      ⟨.absent, .val .delete, .absent⟩
      { method := .val .post, url := "https://x.example/a".toList }
      (by decide)).1,
   (C5_default_filling_of_request_options
      { method := .val .post, url := "https://x.example/a".toList }
      ⟨.absent, .val .delete, .absent⟩
      { method := .val .post, url := "https://x.example/a".toList }
      (by decide)).2.2.1 .post rfl,
   (C5_default_filling_of_request_options
      { method := .val .post, url := "https://x.example/a".toList }
      ⟨.absent, .val .delete, .absent⟩
      { method := .val .post, url := "https://x.example/a".toList }
      (by decide)).2.2.2.2 (by decide)⟩

/-- C6: the choice between the secure and plain transport channel is
determined solely by whether the resolved absolute URL starts with
`https:` — a probing transport reports the secure channel exactly for
`https:`-prefixed resolved URLs under every client configuration, and
`https://host/path` routes secure while `http://host/path` routes plain. -/
theorem C6_scheme_alone_selects_transport_channel
    (copts : WebClientOptions) (opts filled : RequestOptions)
    (h : fillRequestOptionDefaults opts copts = .ok filled) :
    WebClient.request { options := copts, requestFn := channelProbe } opts
      = .promise (.ok (assembleResponse
          { headers := [],
            rawData := match selectChannel (hasSecureProtocol filled.url) with
                       | .secureChannel => "secure"
                       | .plainChannel => "plain",
            statusCode := 0, statusMessage := "", trailers := [] } filled))
  ∧ selectChannel (hasSecureProtocol filled.url)
      = (if ("https:".toList).isPrefixOf filled.url
           then .secureChannel else .plainChannel)
  ∧ WebClient.request
      { options := ⟨.absent, .absent, .absent⟩, requestFn := channelProbe }
      { method := .absent, url := "https://host/path".toList }
      = .promise (.ok
          { headers := [], rawData := "secure", statusCode := 0,
            statusMessage := "", trailers := [],
            requestOptions :=
              { method := .val .get, url := "https://host/path".toList } })
  ∧ WebClient.request
      { options := ⟨.absent, .absent, .absent⟩, requestFn := channelProbe }
      { method := .absent, url := "http://host/path".toList }
      = .promise (.ok
          { headers := [], rawData := "plain", statusCode := 0,
            statusMessage := "", trailers := [],
            requestOptions :=
              { method := .val .get, url := "http://host/path".toList } }) := by
  refine ⟨?_, ?_, by decide, by decide⟩
  · rw [WebClient.request]
    simp [h, channelProbe]
  · rw [selectChannel, hasSecureProtocol]

/-- Witness for C6 with a resolved `https:` URL. -/
theorem C6_scheme_alone_selects_transport_channel_witness :
    fillRequestOptionDefaults { method := .absent, url := "x".toList }
      ⟨.val exampleBase, .absent, .absent⟩
      = .ok { method := .val .get, url := "https://api.example.com/x".toList }
  ∧ (WebClient.request
       { options := ⟨.val exampleBase, .absent, .absent⟩,
         requestFn := channelProbe }
       { method := .absent, url := "x".toList }
       = .promise (.ok (assembleResponse
           { headers := [],
             rawData := match selectChannel (hasSecureProtocol
                            ("https://api.example.com/x".toList)) with
                        | .secureChannel => "secure"
                        | .plainChannel => "plain",
             statusCode := 0, statusMessage := "", trailers := [] }
           { method := .val .get,
             url := "https://api.example.com/x".toList })))
  ∧ selectChannel (hasSecureProtocol ("https://api.example.com/x".toList))
      = (if ("https:".toList).isPrefixOf ("https://api.example.com/x".toList)
           then .secureChannel else .plainChannel) :=
  ⟨by decide,
   (C6_scheme_alone_selects_transport_channel
      ⟨.val exampleBase, .absent, .absent⟩
      { method := .absent, url := "x".toList }
      { method := .val .get, url := "https://api.example.com/x".toList }
      (by decide)).1,
   (C6_scheme_alone_selects_transport_channel
      ⟨.val exampleBase, .absent, .absent⟩
      { method := .absent, url := "x".toList }
      { method := .val .get, url := "https://api.example.com/x".toList }
      (by decide)).2.1⟩

/-- C7: `extend` is exactly construction of a fresh client from the
shallow merge of the current configuration with the overrides (overrides
win), re-running validation and limiter wrapping; and extending the
example client with a POST-only override yields a client whose default
method is POST while the original client's default method stays GET. -/
theorem C7_extend_equals_fresh_construction_on_merged_options :
    (∀ (c : WebClient) (base : Transport) (o : WebClientOptions),
        c.extend base o = WebClient.create base (mergeClientOptions c.options o))
  ∧ (WebClient.extend exampleClient stubTransport postOnlyOverride).map
      (fun c => c.options.defaultMethod) = .ok (.val .post)
  ∧ (WebClient.extend exampleClient stubTransport postOnlyOverride).map
      (fun c => c.options.baseUrl) = .ok (.val exampleBase)
  ∧ exampleClient.options.defaultMethod = .val .get := by
  refine ⟨fun c base o => rfl, ?_, ?_, rfl⟩
  · decide
  · decide

/-- C8: every successfully completed request on a validly constructed
client yields a response whose `requestOptions.url` is absolute: it
matches `^https?:`. -/
theorem C8_response_request_url_is_absolute
    (base : Transport) (copts : WebClientOptions) (c : WebClient)
    (opts : RequestOptions) (resp : Response)
    (hc : WebClient.create base copts = .ok c)
    (hr : c.request opts = .promise (.ok resp)) :
    hasProtocol resp.requestOptions.url = true := by
  rw [WebClient.create] at hc
  by_cases hinv : baseUrlInvalid copts
  · rw [if_pos hinv] at hc
    exact absurd hc (by simp)
  · rw [if_neg hinv] at hc
    rw [Except.ok.injEq] at hc
    have hopts : c.options = copts := by rw [← hc]
    rw [WebClient.request] at hr
    rw [CallResult.promise.injEq] at hr
    cases hf : fillRequestOptionDefaults opts c.options with
    | error e => rw [hf] at hr; exact absurd hr (by simp)
    | ok filled =>
      simp only [hf] at hr
      cases ht : c.requestFn filled.url { method := filled.method.toOption }
          none (hasSecureProtocol filled.url) with
      | error e => simp only [ht] at hr; exact absurd hr (by simp)
      | ok r =>
        simp only [ht, Except.ok.injEq] at hr
        have hro : resp.requestOptions = filled := by
          rw [← hr]; rfl
        rw [hro]
        obtain ⟨_, hurl⟩ := fill_ok_cases opts c.options filled hf
        rcases hurl with ⟨hp, hu⟩ | ⟨_, b, hb, hu⟩
        · rw [hu]; exact hp
        · rw [hu]
          refine hasProtocol_replaceTrailing_append b _ ?_
          refine hasProtocol_of_create_ok copts b (by simpa using hinv) ?_
          rw [← hopts]; exact hb

/-- Witness for C8: a validly constructed client, a relative request,
and the absolute URL of the resulting response. -/
theorem C8_response_request_url_is_absolute_witness :
    WebClient.create stubTransport ⟨.val exampleBase, .absent, .absent⟩
      = .ok { options := ⟨.val exampleBase, .absent, .absent⟩,
              requestFn := stubTransport }
  ∧ WebClient.request
      { options := ⟨.val exampleBase, .absent, .absent⟩,
        requestFn := stubTransport }
      { method := .absent, url := "/x".toList }
      = .promise (.ok (assembleResponse
          { headers := [], rawData := "", statusCode := 0,
            statusMessage := "", trailers := [] }
          { method := .val .get,
            url := "https://api.example.com/x".toList }))
  ∧ hasProtocol (assembleResponse
        { headers := [], rawData := "", statusCode := 0,
          statusMessage := "", trailers := [] }
        { method := .val .get,
          url := "https://api.example.com/x".toList }).requestOptions.url
      = true :=
  ⟨rfl, by decide,
   C8_response_request_url_is_absolute stubTransport
     ⟨.val exampleBase, .absent, .absent⟩
     { options := ⟨.val exampleBase, .absent, .absent⟩,
       requestFn := stubTransport }
     { method := .absent, url := "/x".toList }
     (assembleResponse
       { headers := [], rawData := "", statusCode := 0,
         statusMessage := "", trailers := [] }
       { method := .val .get, url := "https://api.example.com/x".toList })
     rfl (by decide)⟩

/-- C9: when the (possibly limiter-wrapped) transport rejects with an
error `e`, `request` rejects with exactly that `e`, unmodified, and no
response object is produced. -/
theorem C9_transport_rejection_propagates_unmodified
    (copts : WebClientOptions) (opts filled : RequestOptions) (e : Err)
    (h : fillRequestOptionDefaults opts copts = .ok filled) :
    WebClient.request
      { options := copts, requestFn := fun _ _ _ _ => .error e } opts
      = .promise (.error e) := by
  rw [WebClient.request]
  simp [h]

/-- Witness for C9 with a socket-style error on the example client. -/
theorem C9_transport_rejection_propagates_unmodified_witness :
    fillRequestOptionDefaults { method := .absent, url := "/x".toList }
      ⟨.val exampleBase, .absent, .absent⟩
      = .ok { method := .val .get, url := "https://api.example.com/x".toList }
  ∧ WebClient.request
      { options := ⟨.val exampleBase, .absent, .absent⟩,
        requestFn := fun _ _ _ _ => .error (.other "socket hang up") }
      { method := .absent, url := "/x".toList }
      = .promise (.error (.other "socket hang up")) :=
  ⟨by decide,
   C9_transport_rejection_propagates_unmodified
     ⟨.val exampleBase, .absent, .absent⟩
     { method := .absent, url := "/x".toList }
     { method := .val .get, url := "https://api.example.com/x".toList }
     (.other "socket hang up") (by decide)⟩

/-- C10: an options object whose `method` key is explicitly present with
value `undefined` clobbers the default through the object spread: the
filled method is `undefined`, and so is the returned response's
`requestOptions.method`. -/
theorem C10_explicit_undefined_method_clobbers_default
    (copts : WebClientOptions) (u : JStr) (filled : RequestOptions)
    (r : InternalResponse)
    (h : fillRequestOptionDefaults { method := .undef, url := u } copts
           = .ok filled) :
    filled.method = .undef
  ∧ WebClient.request
      { options := copts, requestFn := fun _ _ _ _ => .ok r }
      { method := .undef, url := u }
      = .promise (.ok (assembleResponse r filled))
  ∧ (assembleResponse r filled).requestOptions.method = .undef := by
  have hm : filled.method = .undef := by
    have := (fill_ok_cases { method := .undef, url := u } copts filled h).1
    rw [this, mergeRequestDefaults]
    rfl
  refine ⟨hm, ?_, ?_⟩
  · rw [WebClient.request]
    simp [h]
  · rw [assembleResponse]
    exact hm

/-- Witness for C10: an explicitly-`undefined` method on the example
client, against a default method POST. -/
theorem C10_explicit_undefined_method_clobbers_default_witness :
    fillRequestOptionDefaults { method := .undef, url := "/x".toList }
      ⟨.val exampleBase, .val .post, .absent⟩
      = .ok { method := .undef, url := "https://api.example.com/x".toList }
  ∧ (({ method := .undef,
        url := "https://api.example.com/x".toList } : RequestOptions).method
       = .undef
     ∧ WebClient.request
         { options := ⟨.val exampleBase, .val .post, .absent⟩,
           requestFn := fun _ _ _ _ =>
             .ok { headers := [], rawData := "hello", statusCode := 200,
                   statusMessage := "OK", trailers := [] } }
         { method := .undef, url := "/x".toList }
         = .promise (.ok (assembleResponse
             { headers := [], rawData := "hello", statusCode := 200,
               statusMessage := "OK", trailers := [] }
             { method := .undef,
               url := "https://api.example.com/x".toList }))
     ∧ (assembleResponse
          { headers := [], rawData := "hello", statusCode := 200,
            statusMessage := "OK", trailers := [] }
          { method := .undef,
            url := "https://api.example.com/x".toList }).requestOptions.method
         = .undef) :=
  ⟨by decide,
   C10_explicit_undefined_method_clobbers_default
     ⟨.val exampleBase, .val .post, .absent⟩ ("/x".toList)
     { method := .undef, url := "https://api.example.com/x".toList }
     { headers := [], rawData := "hello", statusCode := 200,
       statusMessage := "OK", trailers := [] }
     (by decide)⟩

end NodeWebClient
